import Mathlib

/-!
Verification of the signal-extraction and settings logic of `src/face.js`
(mouthy-bird).  JavaScript numbers are modelled exactly: an ideal-precision
value is either a rational or one of the IEEE special values `inf`, `negInf`,
`nan` that arise from division by zero.  `Math.sqrt` is kept abstract as a
function `ℚ → ℚ` parameter, since its exact value is irrational; every theorem
below holds for an arbitrary such function.
-/

/-- A JavaScript number: a finite value (modelled exactly as a rational) or one
of the special values produced by division by zero. -/
inductive JsVal where
  | num (q : ℚ)
  | inf
  | negInf
  | nan
  deriving Repr, DecidableEq

namespace JsVal

/-- JavaScript `+` on numbers. -/
def jsAdd : JsVal → JsVal → JsVal
  | num a, num b => num (a + b)
  | nan, _ => nan
  | _, nan => nan
  | inf, negInf => nan
  | negInf, inf => nan
  | inf, _ => inf
  | _, inf => inf
  | negInf, _ => negInf
  | _, negInf => negInf

/-- JavaScript `-` on numbers. -/
def jsSub : JsVal → JsVal → JsVal
  | num a, num b => num (a - b)
  | nan, _ => nan
  | _, nan => nan
  | inf, inf => nan
  | negInf, negInf => nan
  | inf, _ => inf
  | negInf, _ => negInf
  | num _, inf => negInf
  | num _, negInf => inf

/-- JavaScript `/` on numbers.  Division of a nonzero finite value by zero
yields a signed infinity; `0 / 0` yields `nan`.  (The model has a single zero,
matching the `+0` produced by subtracting equal finite values.) -/
def jsDiv : JsVal → JsVal → JsVal
  | nan, _ => nan
  | _, nan => nan
  | num a, num b =>
      if b = 0 then (if a = 0 then nan else if 0 < a then inf else negInf)
      else num (a / b)
  | inf, num b => if b < 0 then negInf else inf
  | negInf, num b => if b < 0 then inf else negInf
  | num _, inf => num 0
  | num _, negInf => num 0
  | inf, _ => nan
  | negInf, _ => nan

/-- JavaScript `Math.min` (two arguments): `nan` if either argument is `nan`. -/
def jsMin : JsVal → JsVal → JsVal
  | nan, _ => nan
  | _, nan => nan
  | num a, num b => num (min a b)
  | negInf, _ => negInf
  | _, negInf => negInf
  | inf, x => x
  | x, inf => x

/-- JavaScript `Math.max` (two arguments): `nan` if either argument is `nan`. -/
def jsMax : JsVal → JsVal → JsVal
  | nan, _ => nan
  | _, nan => nan
  | num a, num b => num (max a b)
  | inf, _ => inf
  | _, inf => inf
  | negInf, x => x
  | x, negInf => x

/-- JavaScript `<` comparison: any comparison involving `nan` is false. -/
def jsLtB : JsVal → JsVal → Bool
  | num a, num b => decide (a < b)
  | num _, inf => true
  | negInf, num _ => true
  | negInf, inf => true
  | _, _ => false

/-- The value is a finite number lying in the closed interval [0, 1]. -/
def inUnitB : JsVal → Bool
  | num q => decide (0 ≤ q ∧ q ≤ 1)
  | _ => false

/-- Propositional form of `inUnitB`. -/
def InUnit (v : JsVal) : Prop := inUnitB v = true

instance (v : JsVal) : Decidable (InUnit v) := by
  unfold InUnit; infer_instance

end JsVal

open JsVal

/-- A face landmark point (`{x, y}` with ideal-precision coordinates). -/
structure Point where
  x : ℚ
  y : ℚ
  deriving Repr, DecidableEq

/-- The flat settings record of `face.js` (field for field). -/
structure Settings where
  inputSize : ℚ
  detectionInterval : ℚ
  scoreThreshold : ℚ
  eyebrowThresholdFloor : ℚ
  eyebrowThresholdCeil : ℚ
  mouthThresholdFloor : ℚ
  mouthThresholdCeil : ℚ
  pitchFloor : ℚ
  pitchCeil : ℚ
  model : String
  showLandmarks : Bool
  showGraphics : Bool
  deriving Repr, DecidableEq

/-- `defaultSettings` of `face.js`, as a `Settings` record. -/
def defaultSettingsRec : Settings :=
  { inputSize := 256
    detectionInterval := 20
    scoreThreshold := 1/2
    eyebrowThresholdFloor := 18
    eyebrowThresholdCeil := 25
    mouthThresholdFloor := 10
    mouthThresholdCeil := 39
    pitchFloor := 20
    pitchCeil := 400
    model := "tinyFaceDetector"
    showLandmarks := false
    showGraphics := true }

/-- `Math.max(0.0, Math.min(1.0, v))` — the clamping step shared by both
signal computations. -/
def jsClamp01 (v : JsVal) : JsVal := jsMax (num 0) (jsMin (num 1) v)

/-- `Math.abs` on a finite value. -/
def jsAbs (q : ℚ) : ℚ := if q < 0 then -q else q

theorem jsAbs_eq_abs (q : ℚ) : jsAbs q = |q| := by
  unfold jsAbs
  by_cases h : q < 0
  · rw [if_pos h, abs_of_neg h]
  · rw [if_neg h, abs_of_nonneg (le_of_not_lt h)]

/-- The `verticalDistances` array of `calculateEyebrowRaise`:
`eyebrow.map((point, index) => eye[index] ? Math.abs(point.y - eye[index].y) : 0)`.
An out-of-range index gives `undefined`, which is falsy, hence the `0` branch. -/
def eyebrowVerticalDistances (eyebrow eye : List Point) : List JsVal :=
  eyebrow.enum.map (fun pi =>
    match eye.get? pi.1 with
    | some ep => num (jsAbs (pi.2.y - ep.y))
    | none => num 0)

/-- The `averageDistance` value of `calculateEyebrowRaise`:
`verticalDistances.reduce((sum, d) => sum + d, 0) / verticalDistances.length`. -/
def eyebrowAverageDistance (eyebrow eye : List Point) : JsVal :=
  jsDiv ((eyebrowVerticalDistances eyebrow eye).foldl jsAdd (num 0))
    (num ((eyebrowVerticalDistances eyebrow eye).length))

/-- `calculateEyebrowRaise(eyebrow, eye)` of `face.js`. -/
def calculateEyebrowRaise (settings : Settings) (eyebrow eye : List Point) : JsVal :=
  let averageDistance := eyebrowAverageDistance eyebrow eye
  let normalizedValue :=
    jsDiv (jsSub averageDistance (num settings.eyebrowThresholdFloor))
      (jsSub (num settings.eyebrowThresholdCeil) (num settings.eyebrowThresholdFloor))
  jsClamp01 normalizedValue

/-- `euclideanDistance(point1, point2)` of `face.js`, with `Math.sqrt`
abstracted as a rational-valued parameter. -/
def euclideanDistance (sqrt : ℚ → ℚ) (point1 point2 : Point) : JsVal :=
  let dx := point1.x - point2.x
  let dy := point1.y - point2.y
  num (sqrt (dx * dx + dy * dy))

/-- `calculateMouthOpen(mouth)` of `face.js`.  `none` models the `TypeError`
thrown when `mouth[3]` or `mouth[9]` is `undefined` (mouth array shorter than
10) and `.x`/`.y` is read from it inside `euclideanDistance`. -/
def calculateMouthOpen (sqrt : ℚ → ℚ) (settings : Settings) (mouth : List Point) :
    Option JsVal :=
  match mouth.get? 3, mouth.get? 9 with
  | some p3, some p9 =>
      let verticalDistance := euclideanDistance sqrt p3 p9
      let normalizedValue :=
        jsDiv (jsSub verticalDistance (num settings.mouthThresholdFloor))
          (jsSub (num settings.mouthThresholdCeil) (num settings.mouthThresholdFloor))
      some (jsClamp01 normalizedValue)
  | _, _ => none

/-! Helper lemmas about the JavaScript value model. -/

theorem jsSub_num_num (a b : ℚ) : jsSub (num a) (num b) = num (a - b) := rfl

theorem jsAdd_num_num (a b : ℚ) : jsAdd (num a) (num b) = num (a + b) := rfl

theorem jsMin_num_num (a b : ℚ) : jsMin (num a) (num b) = num (min a b) := rfl

theorem jsMax_num_num (a b : ℚ) : jsMax (num a) (num b) = num (max a b) := rfl

theorem foldl_jsAdd_num (l : List ℚ) (a : ℚ) :
    (l.map num).foldl jsAdd (num a) = num (a + l.sum) := by
  induction l generalizing a with
  | nil => simp
  | cons x xs ih =>
      simp only [List.map_cons, List.foldl_cons, List.sum_cons]
      rw [show jsAdd (num a) (num x) = num (a + x) from rfl, ih]
      ring_nf

theorem jsClamp01_inUnit (v : JsVal) (h : v ≠ nan) : InUnit (jsClamp01 v) := by
  unfold InUnit inUnitB jsClamp01
  cases v with
  | num q =>
      show (jsMax (num 0) (jsMin (num 1) (num q))).inUnitB = true
      rw [show jsMin (num 1) (num q) = num (min 1 q) from rfl,
        show jsMax (num 0) (num (min 1 q)) = num (max 0 (min 1 q)) from rfl]
      simp only [inUnitB, decide_eq_true_eq]
      constructor
      · exact le_max_left 0 _
      · exact max_le (by norm_num) (min_le_left 1 q)
  | inf => rfl
  | negInf => rfl
  | nan => exact absurd rfl h

/-! Claim C4: the eyebrow-raise signal as a function of geometric distances. -/

/-- The per-index vertical distances named by claim C4: |eyebrow[i].y − eye[i].y|,
taken as 0 at indices where eye[i] is absent. -/
def eyebrowMeanDistances (eyebrow eye : List Point) : List ℚ :=
  eyebrow.enum.map (fun pi =>
    match eye.get? pi.1 with
    | some ep => |pi.2.y - ep.y|
    | none => 0)

/-- Definition following the words of claim C4: the clamp to [0,1] of
(d − eyebrowThresholdFloor) / (eyebrowThresholdCeil − eyebrowThresholdFloor),
where d is the mean over the eyebrow points of the vertical distances. -/
def eyebrowRaiseClaimed (settings : Settings) (eyebrow eye : List Point) : JsVal :=
  let d := jsDiv (num (eyebrowMeanDistances eyebrow eye).sum) (num eyebrow.length)
  jsClamp01 (jsDiv (jsSub d (num settings.eyebrowThresholdFloor))
    (num (settings.eyebrowThresholdCeil - settings.eyebrowThresholdFloor)))

theorem eyebrowVerticalDistances_eq (eyebrow eye : List Point) :
    eyebrowVerticalDistances eyebrow eye = (eyebrowMeanDistances eyebrow eye).map num := by
  unfold eyebrowVerticalDistances eyebrowMeanDistances
  rw [List.map_map]
  refine congrArg (fun f => List.map f eyebrow.enum) ?_
  funext pi
  show (match eye.get? pi.1 with
        | some ep => num (jsAbs (pi.2.y - ep.y))
        | none => num 0) =
      num (match eye.get? pi.1 with
        | some ep => |pi.2.y - ep.y|
        | none => 0)
  cases eye.get? pi.1 with
  | none => rfl
  | some ep => exact congrArg num (jsAbs_eq_abs _)

theorem eyebrowAverageDistance_eq (eyebrow eye : List Point) :
    eyebrowAverageDistance eyebrow eye =
      jsDiv (num (eyebrowMeanDistances eyebrow eye).sum) (num eyebrow.length) := by
  unfold eyebrowAverageDistance
  rw [eyebrowVerticalDistances_eq, foldl_jsAdd_num, zero_add, List.length_map]
  unfold eyebrowMeanDistances
  rw [List.length_map, List.enum_length]

/-- C4: `calculateEyebrowRaise(eyebrow, eye)` equals the clamp to [0,1] of
(d − eyebrowThresholdFloor)/(eyebrowThresholdCeil − eyebrowThresholdFloor),
where d is the mean over the eyebrow points of |eyebrow[i].y − eye[i].y|,
taking the distance as 0 at indices where eye[i] is absent. -/
theorem calculateEyebrowRaise_matches_claim (settings : Settings)
    (eyebrow eye : List Point) :
    calculateEyebrowRaise settings eyebrow eye = eyebrowRaiseClaimed settings eyebrow eye := by
  unfold calculateEyebrowRaise eyebrowRaiseClaimed
  rw [eyebrowAverageDistance_eq]
  rfl

/-! Claim C5: the mouth-openness signal as a function of a geometric distance. -/

/-- Definition following the words of claim C5: the clamp to [0,1] of
(d − mouthThresholdFloor) / (mouthThresholdCeil − mouthThresholdFloor), where
d is the Euclidean distance between the two given mouth points. -/
def mouthOpenClaimed (sqrt : ℚ → ℚ) (settings : Settings) (p3 p9 : Point) : JsVal :=
  jsClamp01 (jsDiv (jsSub (euclideanDistance sqrt p3 p9) (num settings.mouthThresholdFloor))
    (num (settings.mouthThresholdCeil - settings.mouthThresholdFloor)))

/-- C5: for a mouth array with points at indices 3 and 9, `calculateMouthOpen`
returns the clamp to [0,1] of (d − mouthThresholdFloor)/(mouthThresholdCeil −
mouthThresholdFloor), where d is the Euclidean distance between mouth[3] and
mouth[9]. -/
theorem calculateMouthOpen_matches_claim (sqrt : ℚ → ℚ) (settings : Settings)
    (mouth : List Point) (h : 10 ≤ mouth.length) :
    calculateMouthOpen sqrt settings mouth =
      some (mouthOpenClaimed sqrt settings (mouth.getD 3 ⟨0, 0⟩) (mouth.getD 9 ⟨0, 0⟩)) := by
  have h3 : 3 < mouth.length := by omega
  have h9 : 9 < mouth.length := by omega
  unfold calculateMouthOpen mouthOpenClaimed
  rw [List.get?_eq_get h3, List.get?_eq_get h9,
    List.getD_eq_getElem mouth _ h3, List.getD_eq_getElem mouth _ h9]
  rfl

/-- C10: `calculateMouthOpen` accesses only indices 3 and 9 of its argument:
on any mouth array with at least 10 points it evaluates without error, and its
result depends only on the entries at indices 3 and 9. -/
theorem calculateMouthOpen_inbounds (sqrt : ℚ → ℚ) (settings : Settings)
    (mouth mouth' : List Point) (h : 10 ≤ mouth.length) :
    (calculateMouthOpen sqrt settings mouth).isSome = true
  ∧ (mouth'.get? 3 = mouth.get? 3 → mouth'.get? 9 = mouth.get? 9 →
      calculateMouthOpen sqrt settings mouth' = calculateMouthOpen sqrt settings mouth) := by
  constructor
  · have h3 : 3 < mouth.length := by omega
    have h9 : 9 < mouth.length := by omega
    unfold calculateMouthOpen
    rw [List.get?_eq_get h3, List.get?_eq_get h9]
    rfl
  · intro e3 e9
    unfold calculateMouthOpen
    rw [e3, e9]

/-! Claim C1: range of the normalized control signals. -/

theorem jsDiv_num_num_of_ne (a b : ℚ) (hb : b ≠ 0) :
    jsDiv (num a) (num b) = num (a / b) := by
  simp [jsDiv, hb]

theorem jsDiv_num_ne_nan (a b : ℚ) (h : a ≠ 0 ∨ b ≠ 0) :
    jsDiv (num a) (num b) ≠ nan := by
  by_cases hb : b = 0
  · have ha : a ≠ 0 := by tauto
    subst hb
    by_cases hpos : 0 < a <;> simp [jsDiv, ha, hpos]
  · rw [jsDiv_num_num_of_ne a b hb]
    simp

theorem eyebrowAverageDistance_num (eyebrow eye : List Point) (h : eyebrow ≠ []) :
    eyebrowAverageDistance eyebrow eye =
      num ((eyebrowMeanDistances eyebrow eye).sum / eyebrow.length) := by
  have hl : (eyebrow.length : ℚ) ≠ 0 := by
    simp only [ne_eq, Nat.cast_eq_zero, List.length_eq_zero]
    exact h
  rw [eyebrowAverageDistance_eq, jsDiv_num_num_of_ne _ _ hl]

theorem calculateMouthOpen_eq_of_get? (sqrt : ℚ → ℚ) (settings : Settings)
    (mouth : List Point) (p3 p9 : Point)
    (h3 : mouth.get? 3 = some p3) (h9 : mouth.get? 9 = some p9) :
    calculateMouthOpen sqrt settings mouth =
      some (jsClamp01
        (jsDiv (jsSub (euclideanDistance sqrt p3 p9) (num settings.mouthThresholdFloor))
          (jsSub (num settings.mouthThresholdCeil) (num settings.mouthThresholdFloor)))) := by
  unfold calculateMouthOpen
  rw [h3, h9]

/-- The degenerate — but GUI-reachable, since both eyebrow threshold sliders
range over the integers 0 … 50 — configuration in which floor and ceiling of
the eyebrow normalization coincide. -/
def degenerateSettings : Settings :=
  { defaultSettingsRec with eyebrowThresholdFloor := 0, eyebrowThresholdCeil := 0 }

/-- A 5-point eyebrow landmark array lying exactly on the eye line. -/
def zeroEyebrow : List Point := [⟨0, 0⟩, ⟨0, 0⟩, ⟨0, 0⟩, ⟨0, 0⟩, ⟨0, 0⟩]

/-- A 6-point eye landmark array at the same height as `zeroEyebrow`. -/
def zeroEye : List Point := [⟨0, 0⟩, ⟨0, 0⟩, ⟨0, 0⟩, ⟨0, 0⟩, ⟨0, 0⟩, ⟨0, 0⟩]

theorem jsDiv_num_zero_zero : jsDiv (num 0) (num 0) = nan := by
  simp [jsDiv]

theorem zero_eyebrow_nan :
    calculateEyebrowRaise degenerateSettings zeroEyebrow zeroEye = nan := by
  have h1 : eyebrowVerticalDistances zeroEyebrow zeroEye =
      [num (jsAbs ((0:ℚ) - 0)), num (jsAbs ((0:ℚ) - 0)), num (jsAbs ((0:ℚ) - 0)),
        num (jsAbs ((0:ℚ) - 0)), num (jsAbs ((0:ℚ) - 0))] := rfl
  have h2 : jsAbs ((0:ℚ) - 0) = 0 := by simp [jsAbs]
  have h3 : eyebrowAverageDistance zeroEyebrow zeroEye = num 0 := by
    unfold eyebrowAverageDistance
    rw [h1, h2]
    norm_num [List.foldl, jsAdd_num_num, jsDiv_num_num_of_ne]
  have hc : calculateEyebrowRaise degenerateSettings zeroEyebrow zeroEye =
      jsClamp01 (jsDiv
        (jsSub (eyebrowAverageDistance zeroEyebrow zeroEye) (num 0))
        (jsSub (num 0) (num 0))) := rfl
  rw [hc, h3, jsSub_num_num]
  norm_num [jsDiv_num_zero_zero]
  rfl

/-- C1, counterexample: with eyebrowThresholdCeil = eyebrowThresholdFloor = 0
(reachable through the GUI) and an eyebrow resting exactly at the eye line
(all vertical distances 0), `calculateEyebrowRaise` computes 0/0 = NaN, and
`Math.max(0.0, Math.min(1.0, NaN))` is NaN — not a value in [0, 1]. -/
theorem signals_unit_interval_cex :
    ¬ InUnit (calculateEyebrowRaise degenerateSettings zeroEyebrow zeroEye) := by
  rw [zero_eyebrow_nan]
  simp [InUnit, inUnitB]

/-- C1, amended: the signals lie in [0, 1] except in the NaN cases the clamp
cannot repair: for the eyebrow signal, an empty eyebrow array, or coinciding
threshold floor and ceiling together with an average distance exactly equal to
the floor; for the mouth signal (when it returns at all), coinciding threshold
floor and ceiling together with a mouth distance exactly equal to the floor. -/
theorem signals_unit_interval_amended (settings : Settings) (sqrt : ℚ → ℚ)
    (eyebrow eye mouth : List Point) :
    (eyebrow ≠ [] →
      (settings.eyebrowThresholdCeil ≠ settings.eyebrowThresholdFloor ∨
        eyebrowAverageDistance eyebrow eye ≠ num settings.eyebrowThresholdFloor) →
      InUnit (calculateEyebrowRaise settings eyebrow eye))
  ∧ (∀ v, calculateMouthOpen sqrt settings mouth = some v →
      (settings.mouthThresholdCeil ≠ settings.mouthThresholdFloor ∨
        euclideanDistance sqrt (mouth.getD 3 ⟨0, 0⟩) (mouth.getD 9 ⟨0, 0⟩) ≠
          num settings.mouthThresholdFloor) →
      InUnit v) := by
  constructor
  · intro hne hd
    have havg := eyebrowAverageDistance_num eyebrow eye hne
    have hcer : calculateEyebrowRaise settings eyebrow eye =
        jsClamp01 (jsDiv
          (jsSub (eyebrowAverageDistance eyebrow eye) (num settings.eyebrowThresholdFloor))
          (jsSub (num settings.eyebrowThresholdCeil) (num settings.eyebrowThresholdFloor))) :=
      rfl
    rw [hcer, havg, jsSub_num_num, jsSub_num_num]
    apply jsClamp01_inUnit
    apply jsDiv_num_ne_nan
    rcases hd with hc | hq
    · exact Or.inr (sub_ne_zero.mpr hc)
    · refine Or.inl fun h0 => hq ?_
      rw [havg, sub_eq_zero.mp h0]
  · intro v hv hd
    cases h3 : mouth.get? 3 with
    | none =>
        unfold calculateMouthOpen at hv
        rw [h3] at hv
        exact absurd hv (by simp)
    | some p3 =>
        cases h9 : mouth.get? 9 with
        | none =>
            unfold calculateMouthOpen at hv
            rw [h3, h9] at hv
            exact absurd hv (by simp)
        | some p9 =>
            rw [calculateMouthOpen_eq_of_get? sqrt settings mouth p3 p9 h3 h9] at hv
            have hv' := Option.some_injective _ hv
            subst hv'
            have he : euclideanDistance sqrt p3 p9 =
                num (sqrt ((p3.x - p9.x) * (p3.x - p9.x) + (p3.y - p9.y) * (p3.y - p9.y))) :=
              rfl
            rw [he, jsSub_num_num, jsSub_num_num]
            apply jsClamp01_inUnit
            apply jsDiv_num_ne_nan
            rcases hd with hc | hq
            · exact Or.inr (sub_ne_zero.mpr hc)
            · refine Or.inl fun h0 => hq ?_
              rw [List.getD_eq_getD_get?, List.getD_eq_getD_get?, h3, h9,
                Option.getD_some, Option.getD_some, he, sub_eq_zero.mp h0]

/-- A 10-point mouth landmark array (mouth[3] top, mouth[9] bottom). -/
def mouthW : List Point :=
  [⟨0, 0⟩, ⟨1, 0⟩, ⟨2, 0⟩, ⟨3, 0⟩, ⟨4, 0⟩, ⟨0, 2⟩, ⟨1, 2⟩, ⟨2, 2⟩, ⟨3, 2⟩, ⟨3, 4⟩]

theorem signals_unit_interval_amended_witness :
    InUnit (calculateEyebrowRaise defaultSettingsRec zeroEyebrow zeroEye)
  ∧ InUnit ((calculateMouthOpen (fun q => q) defaultSettingsRec mouthW).getD nan) := by
  have h := signals_unit_interval_amended defaultSettingsRec (fun q => q) zeroEyebrow zeroEye mouthW
  constructor
  · exact h.1 (by decide) (Or.inl (by decide))
  · have hm := calculateMouthOpen_eq_of_get? (fun q => q) defaultSettingsRec mouthW
      ⟨3, 0⟩ ⟨3, 4⟩ rfl rfl
    rw [hm, Option.getD_some]
    exact h.2 _ hm (Or.inl (by decide))

/-!
Settings persistence: `loadSettings` / `saveSettings`.  A settings record is a
flat JSON object, modelled as an association list of key/value pairs in
property order; property lookup takes the first occurrence of a key, and
adding a missing property appends it.
-/

/-- A JSON-compatible settings value: number, string, or boolean. -/
inductive SVal where
  | numv (q : ℚ)
  | strv (s : String)
  | boolv (b : Bool)
  deriving Repr, DecidableEq

/-- The `defaultSettings` record of `face.js`, key for key (`0.5` is the exact
rational one half). -/
def defaultSettings : List (String × SVal) :=
  [("inputSize", SVal.numv 256),
   ("detectionInterval", SVal.numv 20),
   ("scoreThreshold", SVal.numv (mkRat 1 2)),
   ("eyebrowThresholdFloor", SVal.numv 18),
   ("eyebrowThresholdCeil", SVal.numv 25),
   ("mouthThresholdFloor", SVal.numv 10),
   ("mouthThresholdCeil", SVal.numv 39),
   ("pitchFloor", SVal.numv 20),
   ("pitchCeil", SVal.numv 400),
   ("model", SVal.strv "tinyFaceDetector"),
   ("showLandmarks", SVal.boolv false),
   ("showGraphics", SVal.boolv true)]

/-- Property lookup on a record: the value at the key, if present. -/
def lookupKey (k : String) : List (String × SVal) → Option SVal
  | [] => none
  | kv :: rest => if kv.1 = k then some kv.2 else lookupKey k rest

/-- The first defined of two optional values. -/
def firstSome {α : Type} (a b : Option α) : Option α :=
  match a with
  | some v => some v
  | none => b

/-- The fill-in loop of `loadSettings`:
`for (const key in defaultSettings) { if (!(key in settings)) settings[key] = defaultSettings[key]; }`,
run over the entries of the second argument. -/
def applyDefaults : List (String × SVal) → List (String × SVal) → List (String × SVal)
  | settings, [] => settings
  | settings, kv :: rest =>
      applyDefaults
        (if (lookupKey kv.1 settings).isSome then settings else settings ++ [kv]) rest

/-- `savedSettings ? JSON.parse(savedSettings) : { ...defaultSettings }`.
The `localStorage` slot is modelled as `Option` of the parsed record: `none`
when `getItem` returns `null`.  `JSON.parse ∘ JSON.stringify` is the identity
on flat records of numbers, strings and booleans, so the slot carries the
record itself. -/
def persistedRecord (savedSettings : Option (List (String × SVal))) :
    List (String × SVal) :=
  match savedSettings with
  | some s => s
  | none => defaultSettings

/-- `loadSettings()` of `face.js`. -/
def loadSettings (savedSettings : Option (List (String × SVal))) :
    List (String × SVal) :=
  applyDefaults (persistedRecord savedSettings) defaultSettings

/-- `saveSettings(settings)` of `face.js`: the `localStorage` slot after
`localStorage.setItem("faceDetectionSettings", JSON.stringify(settings))`. -/
def saveSettings (settings : List (String × SVal)) :
    Option (List (String × SVal)) :=
  some settings

theorem lookupKey_append (k : String) (a b : List (String × SVal)) :
    lookupKey k (a ++ b) = firstSome (lookupKey k a) (lookupKey k b) := by
  induction a with
  | nil => rfl
  | cons kv rest ih =>
      simp only [List.cons_append, lookupKey]
      by_cases hk : kv.1 = k
      · simp [hk, firstSome]
      · simp [hk, ih]

theorem applyDefaults_lookup (l : List (String × SVal)) :
    ∀ (s : List (String × SVal)) (k : String),
      lookupKey k (applyDefaults s l) = firstSome (lookupKey k s) (lookupKey k l) := by
  induction l with
  | nil =>
      intro s k
      cases h : lookupKey k s <;> simp [applyDefaults, firstSome, h, lookupKey]
  | cons kv rest ih =>
      intro s k
      show lookupKey k
          (applyDefaults (if (lookupKey kv.1 s).isSome then s else s ++ [kv]) rest) = _
      by_cases h0 : (lookupKey kv.1 s).isSome = true
      · rw [if_pos h0, ih]
        by_cases hk : kv.1 = k
        · subst hk
          obtain ⟨v, hv⟩ := Option.isSome_iff_exists.mp h0
          simp [lookupKey, hv, firstSome]
        · simp [lookupKey, hk]
      · rw [if_neg h0, ih, lookupKey_append]
        have hnone : lookupKey kv.1 s = none := by
          cases hc : lookupKey kv.1 s
          · rfl
          · rw [hc] at h0; exact absurd rfl h0
        by_cases hk : kv.1 = k
        · subst hk
          simp [lookupKey, hnone, firstSome]
        · simp [lookupKey, hk, firstSome]
          cases lookupKey k s <;> rfl

theorem lookupKey_isSome_of_mem (k : String) (l : List (String × SVal))
    (h : k ∈ l.map Prod.fst) : (lookupKey k l).isSome = true := by
  induction l with
  | nil => simp at h
  | cons kv rest ih =>
      by_cases hk : kv.1 = k
      · simp [lookupKey, hk]
      · simp only [List.map_cons, List.mem_cons] at h
        rcases h with h | h
        · exact absurd h.symm hk
        · simp [lookupKey, hk, ih h]

/-- C7: `loadSettings` always yields a complete record: persisted keys keep
their persisted values, keys of `defaultSettings` absent from the persisted
record get the default value, and every key of `defaultSettings` is present
in the result — for every persisted value (absent, or a record missing some
keys). -/
theorem loadSettings_complete (saved : Option (List (String × SVal))) (k : String) :
    (∀ v, lookupKey k (persistedRecord saved) = some v →
        lookupKey k (loadSettings saved) = some v)
  ∧ (k ∈ defaultSettings.map Prod.fst →
      lookupKey k (persistedRecord saved) = none →
        lookupKey k (loadSettings saved) = lookupKey k defaultSettings)
  ∧ (k ∈ defaultSettings.map Prod.fst →
      (lookupKey k (loadSettings saved)).isSome = true) := by
  refine ⟨?_, ?_, ?_⟩
  · intro v hv
    unfold loadSettings
    rw [applyDefaults_lookup, hv]
    rfl
  · intro _ hnone
    unfold loadSettings
    rw [applyDefaults_lookup, hnone]
    rfl
  · intro hk
    unfold loadSettings
    rw [applyDefaults_lookup]
    cases h : lookupKey k (persistedRecord saved)
    · show (firstSome none (lookupKey k defaultSettings)).isSome = true
      exact lookupKey_isSome_of_mem k defaultSettings hk
    · rfl

/-- A persisted record overriding one key and carrying one unknown key. -/
def savedW : List (String × SVal) :=
  [("inputSize", SVal.numv 128), ("extraKey", SVal.boolv true)]

theorem loadSettings_complete_witness :
    lookupKey "inputSize" (loadSettings (some savedW)) = some (SVal.numv 128)
  ∧ lookupKey "detectionInterval" (loadSettings (some savedW)) =
      lookupKey "detectionInterval" defaultSettings
  ∧ (lookupKey "detectionInterval" (loadSettings (some savedW))).isSome = true := by
  refine ⟨?_, ?_, ?_⟩
  · exact (loadSettings_complete (some savedW) "inputSize").1 (SVal.numv 128) rfl
  · exact (loadSettings_complete (some savedW) "detectionInterval").2.1 (by decide) rfl
  · exact (loadSettings_complete (some savedW) "detectionInterval").2.2 (by decide)

theorem applyDefaults_of_all_present (l : List (String × SVal)) :
    ∀ s, (∀ k, k ∈ l.map Prod.fst → (lookupKey k s).isSome = true) →
      applyDefaults s l = s := by
  induction l with
  | nil => intro s _; rfl
  | cons kv rest ih =>
      intro s hall
      show applyDefaults (if (lookupKey kv.1 s).isSome then s else s ++ [kv]) rest = s
      rw [if_pos (hall kv.1 (by simp))]
      exact ih s (fun k hk => hall k (by simp [hk]))

/-- C8: saving and then loading returns the record unchanged, for every
settings record containing all keys of `defaultSettings`. -/
theorem save_load_roundtrip (settings : List (String × SVal))
    (h : ∀ k, k ∈ defaultSettings.map Prod.fst →
      (lookupKey k settings).isSome = true) :
    loadSettings (saveSettings settings) = settings := by
  show applyDefaults (persistedRecord (some settings)) defaultSettings = settings
  exact applyDefaults_of_all_present defaultSettings settings h

theorem save_load_roundtrip_witness :
    loadSettings (saveSettings defaultSettings) = defaultSettings :=
  save_load_roundtrip defaultSettings (by decide)

/-!
The face loop of `detectFaces`.  Each iteration of
`for (let detection of resizedDetections)` reads one face's landmark arrays
and mutates the module state (`leftEyebrowRaise`, `mouthOpen`,
`lastResetTime`), possibly calling `resetGame()`.  `isGameRunning()` and
`Date.now()` are external inputs sampled inside the iteration, so they are
part of the per-iteration environment.  Drawing only writes to the canvas, but
reading `mouth[3]`/`mouth[9]` on a short mouth array, or
`leftEyebrow[2]`/`rightEyebrow[2]` on a short eyebrow array while the diamond
is drawn, throws a `TypeError`; a throw aborts the rest of the tick while the
mutations already performed remain in effect.
-/

/-- The landmark arrays of one detected face. -/
structure Face where
  leftEye : List Point
  rightEye : List Point
  leftEyebrow : List Point
  rightEyebrow : List Point
  mouth : List Point
  deriving Repr, DecidableEq

/-- The module state mutated by the face loop. -/
structure DState where
  leftEyebrowRaise : JsVal
  mouthOpen : JsVal
  lastResetTime : ℤ
  deriving Repr, DecidableEq

/-- The initial module state of `face.js`: `mouthOpen = 0`,
`leftEyebrowRaise = 0`, `lastResetTime = 0`. -/
def initialDState : DState :=
  { leftEyebrowRaise := num 0, mouthOpen := num 0, lastResetTime := 0 }

/-- `getMouthOpen()` of `face.js`. -/
def getMouthOpen (st : DState) : JsVal := st.mouthOpen

/-- `getBrows()` of `face.js`. -/
def getBrows (st : DState) : JsVal := st.leftEyebrowRaise

/-- The environment of one iteration of the face loop: the current settings,
the value of `isGameRunning()`, the value of `Date.now()` sampled in this
iteration, and the detected face. -/
structure FaceEvent where
  settings : Settings
  gameRunning : Bool
  currentTime : ℤ
  face : Face
  deriving Repr, DecidableEq

/-- The result of one iteration: the state after it, whether `resetGame()`
was called, whether the iteration threw, and whether the malformed-landmark
message was logged. -/
structure StepOut where
  state : DState
  reset : Bool
  threw : Bool
  logged : Bool
  deriving Repr, DecidableEq

/-- The freshly computed `leftEyebrowRaise` of an iteration. -/
def newLeftEyebrowRaise (e : FaceEvent) : JsVal :=
  calculateEyebrowRaise e.settings e.face.leftEyebrow e.face.leftEye

/-- The debounce condition of `detectFaces`:
`!isGameRunning() && leftEyebrowRaise > 0.7 && currentTime - lastResetTime > 3000`
(`0.7` as the exact rational 7/10). -/
def resetCondition (e : FaceEvent) (st : DState) : Bool :=
  (!e.gameRunning) && jsLtB (num (7/10)) (newLeftEyebrowRaise e) &&
    decide (e.currentTime - st.lastResetTime > 3000)

/-- `lastResetTime` after the debounce check. -/
def resetTimeAfter (e : FaceEvent) (st : DState) : ℤ :=
  if resetCondition e st then e.currentTime else st.lastResetTime

/-- The state after the eyebrow assignments and the debounce check, before the
`showGraphics` block. -/
def stateAfterEyebrow (e : FaceEvent) (st : DState) : DState :=
  { leftEyebrowRaise := newLeftEyebrowRaise e
    mouthOpen := st.mouthOpen
    lastResetTime := resetTimeAfter e st }

/-- One iteration of the face loop of `detectFaces`.  The four arms inside the
well-formed-eyes branch correspond to: the mouth access throwing before
`mouthOpen` is assigned; the diamond drawing throwing after `mouthOpen` is
assigned (open mouth but an eyebrow array shorter than 3, whose index 2 is
read for the third-eye position); the normal graphics path; and the
`showGraphics == false` path.  The final arm is the malformed-eyes branch,
which only logs. -/
def processFace (sqrt : ℚ → ℚ) (e : FaceEvent) (st : DState) : StepOut :=
  if e.face.leftEye.length = 6 ∧ e.face.rightEye.length = 6 then
    if e.settings.showGraphics then
      match calculateMouthOpen sqrt e.settings e.face.mouth with
      | none =>
          { state := stateAfterEyebrow e st, reset := resetCondition e st
            threw := true, logged := false }
      | some mo =>
          if jsLtB (num 0) mo &&
              (decide (e.face.leftEyebrow.length < 3) ||
                decide (e.face.rightEyebrow.length < 3)) then
            { state := { stateAfterEyebrow e st with mouthOpen := mo }
              reset := resetCondition e st, threw := true, logged := false }
          else
            { state := { stateAfterEyebrow e st with mouthOpen := mo }
              reset := resetCondition e st, threw := false, logged := false }
    else
      { state := stateAfterEyebrow e st, reset := resetCondition e st
        threw := false, logged := false }
  else
    { state := st, reset := false, threw := false, logged := true }

/-- A detection tick: the face loop run left to right, stopping when an
iteration throws.  Returns the final state and the times at which
`resetGame()` was called, in order. -/
def runTick (sqrt : ℚ → ℚ) : DState → List FaceEvent → DState × List ℤ
  | st, [] => (st, [])
  | st, e :: rest =>
      if (processFace sqrt e st).threw then
        ((processFace sqrt e st).state,
          if (processFace sqrt e st).reset then [e.currentTime] else [])
      else
        ((runTick sqrt (processFace sqrt e st).state rest).1,
          (if (processFace sqrt e st).reset then [e.currentTime] else []) ++
            (runTick sqrt (processFace sqrt e st).state rest).2)

/-- A run of consecutive detection ticks: the state threads through; the
reset times of all ticks are concatenated in order. -/
def runTrace (sqrt : ℚ → ℚ) : DState → List (List FaceEvent) → DState × List ℤ
  | st, [] => (st, [])
  | st, tick :: rest =>
      ((runTrace sqrt (runTick sqrt st tick).1 rest).1,
        (runTick sqrt st tick).2 ++ (runTrace sqrt (runTick sqrt st tick).1 rest).2)

/-! Structural lemmas about one iteration. -/

theorem processFace_reset_eq (sqrt : ℚ → ℚ) (e : FaceEvent) (st : DState) :
    (processFace sqrt e st).reset =
      (decide (e.face.leftEye.length = 6 ∧ e.face.rightEye.length = 6) &&
        resetCondition e st) := by
  unfold processFace
  split
  · next h =>
      rw [decide_eq_true h, Bool.true_and]
      split
      · split
        · rfl
        · split <;> rfl
      · rfl
  · next h =>
      rw [decide_eq_false h, Bool.false_and]

theorem processFace_lastResetTime (sqrt : ℚ → ℚ) (e : FaceEvent) (st : DState) :
    (processFace sqrt e st).state.lastResetTime =
      if (processFace sqrt e st).reset = true then e.currentTime
      else st.lastResetTime := by
  rw [processFace_reset_eq]
  unfold processFace
  split
  · next h =>
      rw [decide_eq_true h, Bool.true_and]
      have harm : (stateAfterEyebrow e st).lastResetTime =
          if resetCondition e st = true then e.currentTime else st.lastResetTime := by
        unfold stateAfterEyebrow resetTimeAfter
        rfl
      split
      · split
        · exact harm
        · split <;> exact harm
      · exact harm
  · next h =>
      rw [decide_eq_false h, Bool.false_and]
      rfl

theorem resetCondition_spec (e : FaceEvent) (st : DState)
    (h : resetCondition e st = true) :
    e.gameRunning = false ∧
    jsLtB (num (7/10)) (newLeftEyebrowRaise e) = true ∧
    e.currentTime - st.lastResetTime > 3000 := by
  unfold resetCondition at h
  simp only [Bool.and_eq_true, Bool.not_eq_true', decide_eq_true_eq] at h
  exact ⟨h.1.1, h.1.2, h.2⟩

/-! The debounce invariant: every emitted reset time exceeds the incoming
`lastResetTime` by more than 3000 ms, the emitted times are pairwise more than
3000 ms apart, and `lastResetTime` never decreases and ends at or above every
emitted time. -/

/-- Invariant relating the reset times `rs` emitted by a run to the
`lastResetTime` before (`L`) and after (`L'`) the run. -/
def ResetInv (L : ℤ) (rs : List ℤ) (L' : ℤ) : Prop :=
  (∀ t ∈ rs, L + 3000 < t) ∧ List.Pairwise (fun a b => a + 3000 < b) rs ∧
    L ≤ L' ∧ ∀ t ∈ rs, t ≤ L'

theorem ResetInv.comp {L M N : ℤ} {rs rs' : List ℤ}
    (h1 : ResetInv L rs M) (h2 : ResetInv M rs' N) : ResetInv L (rs ++ rs') N := by
  obtain ⟨a1, p1, l1, u1⟩ := h1
  obtain ⟨a2, p2, l2, u2⟩ := h2
  refine ⟨?_, ?_, le_trans l1 l2, ?_⟩
  · intro t ht
    rcases List.mem_append.mp ht with h | h
    · exact a1 t h
    · have := a2 t h
      omega
  · rw [List.pairwise_append]
    refine ⟨p1, p2, fun a ha b hb => ?_⟩
    have := u1 a ha
    have := a2 b hb
    omega
  · intro t ht
    rcases List.mem_append.mp ht with h | h
    · exact le_trans (u1 t h) l2
    · exact u2 t h

theorem processFace_ResetInv (sqrt : ℚ → ℚ) (e : FaceEvent) (st : DState) :
    ResetInv st.lastResetTime
      (if (processFace sqrt e st).reset = true then [e.currentTime] else [])
      (processFace sqrt e st).state.lastResetTime := by
  by_cases h : (processFace sqrt e st).reset = true
  · rw [if_pos h, processFace_lastResetTime, if_pos h]
    have hrc : resetCondition e st = true := by
      have heq := processFace_reset_eq sqrt e st
      rw [h] at heq
      exact (Bool.and_eq_true _ _).mp heq.symm |>.2
    have h3 := (resetCondition_spec e st hrc).2.2
    refine ⟨?_, ?_, ?_, ?_⟩
    · intro t ht
      rw [List.mem_singleton] at ht
      omega
    · exact List.pairwise_singleton _ _
    · omega
    · intro t ht
      rw [List.mem_singleton] at ht
      omega
  · rw [if_neg h, processFace_lastResetTime, if_neg h]
    exact ⟨by simp, by simp, le_refl _, by simp⟩

theorem runTick_ResetInv (sqrt : ℚ → ℚ) (events : List FaceEvent) :
    ∀ st : DState, ResetInv st.lastResetTime (runTick sqrt st events).2
      (runTick sqrt st events).1.lastResetTime := by
  induction events with
  | nil =>
      intro st
      exact ⟨by simp [runTick], by simp [runTick], le_refl _, by simp [runTick]⟩
  | cons e rest ih =>
      intro st
      show ResetInv st.lastResetTime
        (if (processFace sqrt e st).threw = true then
          ((processFace sqrt e st).state,
            if (processFace sqrt e st).reset = true then [e.currentTime] else [])
        else
          ((runTick sqrt (processFace sqrt e st).state rest).1,
            (if (processFace sqrt e st).reset = true then [e.currentTime] else []) ++
              (runTick sqrt (processFace sqrt e st).state rest).2)).2
        (if (processFace sqrt e st).threw = true then
          ((processFace sqrt e st).state,
            if (processFace sqrt e st).reset = true then [e.currentTime] else [])
        else
          ((runTick sqrt (processFace sqrt e st).state rest).1,
            (if (processFace sqrt e st).reset = true then [e.currentTime] else []) ++
              (runTick sqrt (processFace sqrt e st).state rest).2)).1.lastResetTime
      by_cases ht : (processFace sqrt e st).threw = true
      · rw [if_pos ht]
        exact processFace_ResetInv sqrt e st
      · rw [if_neg ht]
        exact (processFace_ResetInv sqrt e st).comp (ih (processFace sqrt e st).state)

theorem runTrace_ResetInv (sqrt : ℚ → ℚ) (trace : List (List FaceEvent)) :
    ∀ st : DState, ResetInv st.lastResetTime (runTrace sqrt st trace).2
      (runTrace sqrt st trace).1.lastResetTime := by
  induction trace with
  | nil =>
      intro st
      exact ⟨by simp [runTrace], by simp [runTrace], le_refl _, by simp [runTrace]⟩
  | cons tick rest ih =>
      intro st
      show ResetInv st.lastResetTime
        ((runTick sqrt st tick).2 ++ (runTrace sqrt (runTick sqrt st tick).1 rest).2)
        (runTrace sqrt (runTick sqrt st tick).1 rest).1.lastResetTime
      exact (runTick_ResetInv sqrt tick st).comp (ih (runTick sqrt st tick).1)

/-- C2: the game reset is debounced.  First conjunct: in any iteration of any
detection tick, `resetGame` is called only if the game is not running, the
freshly computed left-eyebrow-raise signal exceeds 0.7, and more than 3000 ms
have elapsed since `lastResetTime`.  Second conjunct: over any run of
detection ticks, the times of any two `resetGame` calls are more than 3000 ms
apart — never 3000 ms or less. -/
theorem reset_debounce (sqrt : ℚ → ℚ) (st : DState) (trace : List (List FaceEvent)) :
    (∀ (e : FaceEvent) (st' : DState), (processFace sqrt e st').reset = true →
        e.gameRunning = false ∧
        jsLtB (num (7/10))
          (calculateEyebrowRaise e.settings e.face.leftEyebrow e.face.leftEye) = true ∧
        e.currentTime - st'.lastResetTime > 3000)
  ∧ List.Pairwise (fun a b => a + 3000 < b) (runTrace sqrt st trace).2 := by
  constructor
  · intro e st' h
    have hrc : resetCondition e st' = true := by
      have heq := processFace_reset_eq sqrt e st'
      rw [h] at heq
      exact (Bool.and_eq_true _ _).mp heq.symm |>.2
    exact resetCondition_spec e st' hrc
  · exact (runTrace_ResetInv sqrt trace st).2.1

/-- C3: when a face's eye landmark arrays are malformed (not exactly 6 points
each), the iteration only logs: the state (including `leftEyebrowRaise`,
`mouthOpen` and `lastResetTime`) is unchanged, `resetGame` is not called, and
nothing is thrown. -/
theorem malformed_eyes_log_only (sqrt : ℚ → ℚ) (e : FaceEvent) (st : DState)
    (h : ¬ (e.face.leftEye.length = 6 ∧ e.face.rightEye.length = 6)) :
    processFace sqrt e st =
      { state := st, reset := false, threw := false, logged := true } := by
  unfold processFace
  rw [if_neg h]

/-- C9: `mouthOpen` (the value returned by `getMouthOpen`) is assigned in an
iteration only when `settings.showGraphics` is true and the eye landmarks are
well-formed; with `showGraphics` false it keeps its previous value for every
mouth array, while `leftEyebrowRaise` is still updated. -/
theorem mouthOpen_update_gated (sqrt : ℚ → ℚ) (e : FaceEvent) (st : DState) :
    (¬ (e.settings.showGraphics = true ∧
        e.face.leftEye.length = 6 ∧ e.face.rightEye.length = 6) →
      getMouthOpen (processFace sqrt e st).state = getMouthOpen st)
  ∧ (e.settings.showGraphics = false →
      e.face.leftEye.length = 6 → e.face.rightEye.length = 6 →
      getMouthOpen (processFace sqrt e st).state = getMouthOpen st ∧
      (processFace sqrt e st).state.leftEyebrowRaise =
        calculateEyebrowRaise e.settings e.face.leftEyebrow e.face.leftEye) := by
  constructor
  · intro h
    unfold processFace
    by_cases hw : e.face.leftEye.length = 6 ∧ e.face.rightEye.length = 6
    · have hg : ¬ e.settings.showGraphics = true := fun hgt => h ⟨hgt, hw⟩
      rw [if_pos hw, if_neg hg]
      rfl
    · rw [if_neg hw]
  · intro hg h6l h6r
    unfold processFace
    rw [if_pos ⟨h6l, h6r⟩, if_neg (by rw [hg]; exact Bool.false_ne_true)]
    exact ⟨rfl, rfl⟩

/-! Concrete data for the witnesses of the stateful claims. -/

/-- An eyebrow raised 30 px above the eye line. -/
def raisedEyebrowW : List Point :=
  [⟨0, -30⟩, ⟨1, -30⟩, ⟨2, -30⟩, ⟨3, -30⟩, ⟨4, -30⟩]

/-- A face with well-formed eyes, a raised eyebrow and a 10-point mouth. -/
def faceW : Face :=
  { leftEye := zeroEye, rightEye := zeroEye, leftEyebrow := raisedEyebrowW
    rightEyebrow := raisedEyebrowW, mouth := mouthW }

/-- An iteration environment that triggers the debounced reset. -/
def eventW : FaceEvent :=
  { settings := defaultSettingsRec, gameRunning := false, currentTime := 10000
    face := faceW }

theorem raised_eyebrow_one :
    calculateEyebrowRaise defaultSettingsRec raisedEyebrowW zeroEye = num 1 := by
  have h1 : eyebrowVerticalDistances raisedEyebrowW zeroEye =
      [num (jsAbs ((-30:ℚ) - 0)), num (jsAbs ((-30:ℚ) - 0)), num (jsAbs ((-30:ℚ) - 0)),
        num (jsAbs ((-30:ℚ) - 0)), num (jsAbs ((-30:ℚ) - 0))] := rfl
  have h2 : jsAbs ((-30:ℚ) - 0) = 30 := by norm_num [jsAbs]
  have h3 : eyebrowAverageDistance raisedEyebrowW zeroEye = num 30 := by
    unfold eyebrowAverageDistance
    rw [h1, h2]
    norm_num [List.foldl, jsAdd_num_num, jsDiv_num_num_of_ne]
  have hcer : calculateEyebrowRaise defaultSettingsRec raisedEyebrowW zeroEye =
      jsClamp01 (jsDiv
        (jsSub (eyebrowAverageDistance raisedEyebrowW zeroEye) (num 18))
        (jsSub (num 25) (num 18))) := rfl
  rw [hcer, h3]
  simp only [jsSub_num_num]
  norm_num
  rw [jsDiv_num_num_of_ne 12 7 (by norm_num)]
  unfold jsClamp01
  rw [jsMin_num_num, jsMax_num_num,
    min_eq_left (by norm_num : (1:ℚ) ≤ 12/7),
    max_eq_right (by norm_num : (0:ℚ) ≤ 1)]

theorem eventW_resetCondition : resetCondition eventW initialDState = true := by
  have hl : newLeftEyebrowRaise eventW = num 1 := raised_eyebrow_one
  unfold resetCondition
  rw [hl]
  show (!false) && jsLtB (num (7/10)) (num 1) && decide ((10000:ℤ) - 0 > 3000) = true
  rw [show jsLtB (num (7/10)) (num 1) = decide ((7/10:ℚ) < 1) from rfl,
    decide_eq_true (by norm_num : (7/10:ℚ) < 1),
    decide_eq_true (by norm_num : (10000:ℤ) - 0 > 3000)]
  rfl

theorem eventW_reset :
    (processFace (fun q => q) eventW initialDState).reset = true := by
  rw [processFace_reset_eq, eventW_resetCondition,
    decide_eq_true (show eventW.face.leftEye.length = 6 ∧
      eventW.face.rightEye.length = 6 from ⟨rfl, rfl⟩)]
  rfl

theorem reset_debounce_witness :
    (processFace (fun q => q) eventW initialDState).reset = true
  ∧ eventW.gameRunning = false
  ∧ jsLtB (num (7/10))
      (calculateEyebrowRaise eventW.settings eventW.face.leftEyebrow
        eventW.face.leftEye) = true
  ∧ eventW.currentTime - initialDState.lastResetTime > 3000
  ∧ List.Pairwise (fun a b => a + 3000 < b)
      (runTrace (fun q => q) initialDState [[eventW]]).2 := by
  have h := reset_debounce (fun q => q) initialDState [[eventW]]
  obtain ⟨hg, hl, ht⟩ := h.1 eventW initialDState eventW_reset
  exact ⟨eventW_reset, hg, hl, ht, h.2⟩

/-- A face whose left eye has only 5 landmark points. -/
def malformedFaceW : Face :=
  { leftEye := zeroEyebrow, rightEye := zeroEye, leftEyebrow := raisedEyebrowW
    rightEyebrow := raisedEyebrowW, mouth := mouthW }

/-- An iteration environment with malformed eye landmarks. -/
def malformedEventW : FaceEvent :=
  { settings := defaultSettingsRec, gameRunning := false, currentTime := 10000
    face := malformedFaceW }

theorem malformed_eyes_log_only_witness :
    processFace (fun q => q) malformedEventW initialDState =
      { state := initialDState, reset := false, threw := false, logged := true } :=
  malformed_eyes_log_only (fun q => q) malformedEventW initialDState (by decide)

/-- The default settings with graphics rendering turned off. -/
def noGraphicsSettings : Settings :=
  { defaultSettingsRec with showGraphics := false }

/-- An iteration environment with `showGraphics` false and well-formed eyes. -/
def noGraphicsEventW : FaceEvent :=
  { settings := noGraphicsSettings, gameRunning := true, currentTime := 500
    face := faceW }

theorem mouthOpen_update_gated_witness :
    getMouthOpen (processFace (fun q => q) noGraphicsEventW initialDState).state =
      getMouthOpen initialDState
  ∧ (processFace (fun q => q) noGraphicsEventW initialDState).state.leftEyebrowRaise =
      calculateEyebrowRaise noGraphicsEventW.settings
        noGraphicsEventW.face.leftEyebrow noGraphicsEventW.face.leftEye :=
  (mouthOpen_update_gated (fun q => q) noGraphicsEventW initialDState).2 rfl rfl rfl

/-- A 12-point mouth agreeing with `mouthW` at indices 3 and 9. -/
def mouthW12 : List Point := mouthW ++ [⟨5, 5⟩, ⟨6, 6⟩]

theorem calculateMouthOpen_inbounds_witness :
    (calculateMouthOpen (fun q => q) defaultSettingsRec mouthW).isSome = true
  ∧ calculateMouthOpen (fun q => q) defaultSettingsRec mouthW12 =
      calculateMouthOpen (fun q => q) defaultSettingsRec mouthW := by
  have h := calculateMouthOpen_inbounds (fun q => q) defaultSettingsRec mouthW
    mouthW12 (by decide)
  exact ⟨h.1, h.2 rfl rfl⟩

theorem calculateMouthOpen_matches_claim_witness :
    10 ≤ mouthW.length
  ∧ calculateMouthOpen (fun q => q) defaultSettingsRec mouthW =
      some (mouthOpenClaimed (fun q => q) defaultSettingsRec
        (mouthW.getD 3 ⟨0, 0⟩) (mouthW.getD 9 ⟨0, 0⟩)) :=
  ⟨by decide,
    calculateMouthOpen_matches_claim (fun q => q) defaultSettingsRec mouthW (by decide)⟩
